import Mathlib

/-!
Shallow embedding of the flood-detect server (`src/server.ts`).

JavaScript numbers are modelled as `Option ℚ`: `none` stands for `NaN`,
`some q` for a finite value (infinities do not arise on the modelled paths;
request inputs are finite decimal strings or absent).  Values reaching the
feature vector are modelled by `JSVal`, which additionally covers the truthy
non-number objects a plain-object property lookup can return through the
prototype chain.  Request handlers are pure functions; the outcomes of
outbound calls (`fetch`, the classifier's `predictProbability`) and the
`Math.random()` draws are passed as explicit parameters.
-/

/-- A JavaScript number: `none` is `NaN`, `some q` a finite value. -/
abbrev JSNum := Option ℚ

/-- The JavaScript expression `a || d` on numbers when the default `d` is a
finite literal, so the result is finite. -/
def jsOrQ (a : JSNum) (d : ℚ) : ℚ :=
  match a with
  | none => d
  | some v => if v = 0 then d else v

/-- Whitespace skipped by `parseFloat` before the number. -/
def isWs (c : Char) : Bool :=
  c == ' ' || c == '\t' || c == '\n' || c == '\r'

/-- Value of a list of decimal digit characters. -/
def digitsVal (ds : List Char) : ℕ :=
  ds.foldl (fun a c => 10 * a + (c.toNat - 48)) 0

/-- Signed exponent digits of a decimal literal (empty digit run counts as 0,
matching the longest-valid-prefix rule: a bare `e`/`e+`/`e-` contributes
nothing to the value). -/
def expSigned (cs : List Char) : ℤ :=
  match cs with
  | '-' :: r => -(digitsVal (r.takeWhile Char.isDigit) : ℤ)
  | '+' :: r => (digitsVal (r.takeWhile Char.isDigit) : ℤ)
  | r => (digitsVal (r.takeWhile Char.isDigit) : ℤ)

/-- Optional exponent part (`e`/`E` followed by signed digits) of a decimal
literal. -/
def expVal (cs : List Char) : ℤ :=
  match cs with
  | 'e' :: r => expSigned r
  | 'E' :: r => expSigned r
  | _ => 0

/-- The JavaScript builtin `parseFloat`: skip leading whitespace, optional
sign, then the longest prefix of the form `digits [. digits] [exponent]` or
`. digits [exponent]`; `none` (`NaN`) when no digits are found. -/
def jsParseFloat (s : String) : Option ℚ :=
  let cs := s.data.dropWhile isWs
  let sgn : ℚ := match cs with
    | '-' :: _ => -1
    | _ => 1
  let cs1 : List Char := match cs with
    | '-' :: r => r
    | '+' :: r => r
    | r => r
  let ip := cs1.takeWhile Char.isDigit
  let rest1 := cs1.dropWhile Char.isDigit
  let fp : List Char := match rest1 with
    | '.' :: r => r.takeWhile Char.isDigit
    | _ => []
  let rest2 : List Char := match rest1 with
    | '.' :: r => r.dropWhile Char.isDigit
    | r => r
  if ip.isEmpty && fp.isEmpty then none
  else
    some (sgn * ((digitsVal ip : ℚ) + (digitsVal fp : ℚ) / 10 ^ fp.length)
      * (10 : ℚ) ^ expVal rest2)

/-- A JSON value arriving in a request-body field: absent, a string, or a
number. -/
inductive BodyVal
  | missing
  | str (s : String)
  | num (q : ℚ)
deriving DecidableEq

/-- `parseFloat` applied to a request-body field (`src/server.ts` lines
57-60): strings are parsed, finite numbers round-trip through their decimal
rendering, an absent field (`undefined`) parses to `NaN`. -/
def parseFloatVal : BodyVal → Option ℚ
  | .missing => none
  | .str s => jsParseFloat s
  | .num q => some q

/-- A JavaScript value as it occurs in the feature vector: a finite number,
`NaN`, or a truthy non-number (an inherited `Object.prototype` member reached
through the prototype chain, recorded by its property name). -/
inductive JSVal
  | num (q : ℚ)
  | nan
  | obj (name : String)
deriving DecidableEq

/-- A `parseFloat` result as a JavaScript value. -/
def toJSVal : Option ℚ → JSVal
  | none => .nan
  | some q => .num q

/-- The JavaScript expression `a || d` on values: `NaN` and `0` are falsy,
every non-number object is truthy. -/
def jsOrV (a d : JSVal) : JSVal :=
  match a with
  | .nan => d
  | .num v => if v = 0 then d else .num v
  | x => x

/-- `a || d` when `a` is a property-lookup result that may be `undefined`
(which is falsy). -/
def jsOrUndef (a : Option JSVal) (d : JSVal) : JSVal :=
  match a with
  | none => d
  | some x => jsOrV x d

/-- The property names every plain JavaScript object literal inherits from
`Object.prototype`: looking any of them up on `drainageSystemMap` yields the
inherited member (a function, or `Object.prototype` itself for the last one),
which is truthy. -/
def protoProps : List String :=
  [ "constructor", "hasOwnProperty", "isPrototypeOf", "propertyIsEnumerable",
    "toLocaleString", "toString", "valueOf", "__defineGetter__",
    "__defineSetter__", "__lookupGetter__", "__lookupSetter__", "__proto__" ]

/-- The lookup `drainageSystemMap[drainageSystem]` (lines 47-53): one of the
three own entries; otherwise, since JavaScript property access walks the
prototype chain, the inherited `Object.prototype` member when the key names
one; and `undefined` for every remaining value (a missing field included,
whose key is the string "undefined"). -/
def drainageLookup (v : BodyVal) : Option JSVal :=
  if v = .str "Fair" then some (.num 1)
  else if v = .str "Good" then some (.num 2)
  else if v = .str "Very Good" then some (.num 3)
  else match v with
    | .str s => if s ∈ protoProps then some (.obj s) else none
    | _ => none

/-- `const drainageValue = drainageSystemMap[drainageSystem] || 2` (line 53). -/
def drainageValue (v : BodyVal) : JSVal := jsOrUndef (drainageLookup v) (.num 2)

/-- The JSON body of `POST /api/predict` (line 44). -/
structure PredictBody where
  rainfall : BodyVal
  altitude : BodyVal
  areaElevation : BodyVal
  roadElevation : BodyVal
  drainageSystem : BodyVal
deriving DecidableEq

/-- The four numeric environmental fields of the body, in feature order. -/
def numField (b : PredictBody) (i : Fin 4) : BodyVal :=
  match i.val with
  | 0 => b.rainfall
  | 1 => b.altitude
  | 2 => b.areaElevation
  | _ => b.roadElevation

/-- The feature vector `input` (lines 56-62): each numeric field as
`parseFloat(x) || 0`, then the drainage value. -/
def inputVec (b : PredictBody) : List JSVal :=
  [ jsOrV (toJSVal (parseFloatVal b.rainfall)) (.num 0),
    jsOrV (toJSVal (parseFloatVal b.altitude)) (.num 0),
    jsOrV (toJSVal (parseFloatVal b.areaElevation)) (.num 0),
    jsOrV (toJSVal (parseFloatVal b.roadElevation)) (.num 0),
    drainageValue b.drainageSystem ]

/-- Outcome of `rf.predictProbability([input])[0][1]` (lines 66-72): `.error`
when the call threw, `.ok o` with `o` the (possibly `undefined`) entry for the
flood class otherwise. -/
abbrev ProbOutcome := Except Unit (Option ℚ)

/-- `floodProb` after lines 65-72: `probabilities[1] || 0` on success, the
heuristic `0.85` / `0.15` when `predictProbability` threw. -/
def floodProbOf (predict : List JSVal → ℚ) (po : ProbOutcome) (b : PredictBody) : ℚ :=
  match po with
  | .ok p1 => jsOrQ p1 0
  | .error _ => if predict (inputVec b) = 1 then (0.85 : ℚ) else (0.15 : ℚ)

/-- The character for the decimal digit `d % 10`. -/
def digitCh (d : ℕ) : Char := Char.ofNat (48 + d % 10)

/-- Decimal digit characters of `n`, most significant first (fuel-structured
so it reduces definitionally). -/
def natDigitsAux : ℕ → ℕ → List Char
  | 0, _ => []
  | fuel + 1, n => if n < 10 then [digitCh n] else natDigitsAux fuel (n / 10) ++ [digitCh n]

/-- Decimal rendering of a natural number. -/
def natStr (n : ℕ) : String := String.mk (natDigitsAux (n + 1) n)

/-- The JavaScript builtin `Number.prototype.toFixed(1)` on exact rationals:
per the ECMAScript algorithm the sign is split off, the magnitude is rounded
to the nearest tenth with ties away from zero, and exactly one digit follows
the decimal point. -/
def toFixed1 (q : ℚ) : String :=
  let n := (Int.floor (|q| * 10 + 1/2)).toNat
  (if q < 0 then "-" else "") ++ natStr (n / 10) ++ "." ++ String.mk [digitCh n]

/-- The JavaScript builtin `Number.prototype.toFixed(2)` on exact rationals,
analogously to `toFixed1`. -/
def toFixed2 (q : ℚ) : String :=
  let n := (Int.floor (|q| * 100 + 1/2)).toNat
  (if q < 0 then "-" else "")
    ++ natStr (n / 100) ++ "." ++ String.mk [digitCh (n / 10), digitCh n]

/-- The response of `POST /api/predict` (lines 74-78). -/
structure PredictResponse where
  prediction : String
  probability : String
  riskLevel : String
deriving DecidableEq

/-- The success branch of `POST /api/predict` (lines 44-78). -/
def predictHandler (predict : List JSVal → ℚ) (po : ProbOutcome) (b : PredictBody) :
    PredictResponse :=
  let floodProb := floodProbOf predict po b
  { prediction := if predict (inputVec b) = 1 then "Flood Likely" else "No Flood Expected"
    probability := toFixed2 (floodProb * 100)
    riskLevel :=
      if floodProb > 0.7 then "High" else if floodProb > 0.4 then "Medium" else "Low" }

/-- The whole `POST /api/predict` route (lines 42-83) as status code and
optional success body: every operation in the embedded handler is total, so
the `catch` branch (status 500, lines 79-82) is unreachable and the route
always answers 200 with a response. -/
def predictRoute (predict : List JSVal → ℚ) (po : ProbOutcome) (b : PredictBody) :
    ℕ × Option PredictResponse :=
  (200, some (predictHandler predict po b))

/-- The risk-level rule exactly as the specification words it: probability
strictly above 0.7 is "High", strictly above 0.4 and at most 0.7 is "Medium",
at most 0.4 is "Low". -/
def riskLevelSpec (p : ℚ) : String :=
  if 0.7 < p then "High" else if 0.4 < p ∧ p ≤ 0.7 then "Medium" else "Low"

/-- Outcome of one upstream `fetch` in the environmental-data route: the call
threw, returned a non-ok response, or returned ok with the extracted numeric
field (possibly absent from the payload). -/
inductive Upstream
  | threw
  | notOk
  | okData (v : Option ℚ)
deriving DecidableEq

/-- The value a fallback-wrapped upstream call leaves in its variable
(lines 93-102 for `rainfall`, 105-114 for `altitude`): 0 on a thrown call or a
non-ok response, otherwise the payload field `|| 0`. -/
def upstreamValue : Upstream → ℚ
  | .threw => 0
  | .notOk => 0
  | .okData v => jsOrQ v 0

/-- The Express truthiness test `!lat` on a query parameter: absent or empty
string is falsy (line 87). -/
def jsFalsyParam : Option String → Bool
  | none => true
  | some s => s.isEmpty

/-- The success body of `GET /api/environmental-data` (lines 120-125). -/
structure EnvResponse where
  rainfall : String
  altitude : String
  areaElevation : String
  roadElevation : String
deriving DecidableEq

/-- A reply of `GET /api/environmental-data`: an error status with a message,
or a status with a JSON body. -/
inductive EnvReply
  | clientError (status : ℕ) (msg : String)
  | ok (status : ℕ) (body : EnvResponse)
deriving DecidableEq

/-- The `GET /api/environmental-data` route (lines 85-130): `w` and `e` are
the weather and elevation upstream outcomes, `r1` and `r2` the two
`Math.random()` draws of lines 117-118. -/
def envRoute (lat lng : Option String) (w e : Upstream) (r1 r2 : ℚ) : EnvReply :=
  if jsFalsyParam lat || jsFalsyParam lng then
    .clientError 400 "Latitude and longitude are required"
  else
    let rainfall := upstreamValue w
    let altitude := upstreamValue e
    let areaElevation := altitude + (r1 * 2 - 1)
    let roadElevation := altitude + (r2 * 0.5 - 0.25)
    .ok 200
      { rainfall := toFixed1 rainfall
        altitude := toFixed1 altitude
        areaElevation := toFixed1 areaElevation
        roadElevation := toFixed1 roadElevation }

/-- `trainingData` (lines 15-31): feature rows interleaved with label rows. -/
def trainingData : List (List ℚ) :=
  [ [50, 100, 50, 52, 3], [0, 0],
    [200, 5, 2, 1, 1], [1, 1],
    [150, 10, 5, 4, 1], [1, 1],
    [20, 200, 150, 152, 3], [0, 0],
    [300, 2, 1, 1, 1], [1, 1],
    [80, 50, 20, 22, 2], [0, 0],
    [120, 15, 8, 7, 2], [0, 1],
    [180, 8, 4, 3, 1], [1, 1],
    [40, 120, 80, 82, 3], [0, 0],
    [250, 5, 3, 2, 1], [1, 1],
    [60, 40, 15, 16, 2], [0, 0],
    [220, 12, 6, 5, 1], [1, 1],
    [10, 300, 250, 252, 3], [0, 0],
    [100, 20, 10, 11, 2], [0, 0],
    [140, 18, 9, 8, 1], [0, 1] ]

/-- `trainingData.filter((_, i) => i % 2 === 0)` (line 33). -/
def evenIdx {α : Type} : List α → List α
  | [] => []
  | [a] => [a]
  | a :: _ :: t => a :: evenIdx t

/-- `trainingData.filter((_, i) => i % 2 !== 0)` (line 34). -/
def oddIdx {α : Type} : List α → List α
  | [] => []
  | [_] => []
  | _ :: b :: t => b :: oddIdx t

/-- `X` (line 33): the 15 feature rows. -/
def Xtrain : List (List ℚ) := evenIdx trainingData

/-- `y` (line 34): the first entry of each label row. -/
def ytrain : List ℚ := (oddIdx trainingData).map (fun l => l.headD 0)

/-- Squared Euclidean distance between feature vectors. -/
def sqDist (a b : List ℚ) : ℚ := (List.zipWith (fun x y => (x - y) ^ 2) a b).sum

/-- Fold keeping the label of the closest sample seen so far (earliest sample
wins ties). -/
def nnBest (v : List ℚ) : List (List ℚ × ℚ) → ℚ × ℚ → ℚ
  | [], best => best.2
  | (x, l) :: t, best =>
      if sqDist v x < best.1 then nnBest v t (sqDist v x, l) else nnBest v t best

/-- Modelled from the spec: the classifier implementation
(`RandomForestClassifier` of the `ml-random-forest` package, lines 4 and
36-40) is not among this repository's sources.  Section 4.2 of the
specification describes it as an ensemble trained once on the fixed dataset,
and section 8 requires its predicted label on a training sample to match that
sample's recorded label; it is modelled as the nearest-neighbour classifier
over the trained-on samples, which realises exactly that memorisation
contract. -/
def rfModelPredict (v : List ℚ) : ℚ :=
  match Xtrain.zip ytrain with
  | [] => 0
  | (x, l) :: t => nnBest v t (sqDist v x, l)

/-- How the modelled classifier reads one feature entry: a number as itself;
non-numbers read as 0, but none occurs on the proven paths. -/
def jsValNum : JSVal → ℚ
  | .num q => q
  | _ => 0

/-- The modelled classifier applied to a JS feature vector. -/
def rfModelPredictJS (l : List JSVal) : ℚ := rfModelPredict (l.map jsValNum)

/-- The example body of spec section 8. -/
def examplePostBody : PredictBody :=
  { rainfall := .str "200"
    altitude := .str "5"
    areaElevation := .str "2"
    roadElevation := .str "1"
    drainageSystem := .str "Fair" }

/-- Length of the run of characters after the last `.` of a string. -/
def fracLen (s : String) : ℕ :=
  (s.data.reverse.takeWhile (fun c => c ≠ '.')).length

/-- A body whose drainage string is none of the three mapped ones. -/
def noDrainBody : PredictBody :=
  { rainfall := .str "100"
    altitude := .str "10"
    areaElevation := .str "5"
    roadElevation := .str "4"
    drainageSystem := .str "Poor" }

/-- A body with a non-numeric area-elevation field. -/
def nanBody : PredictBody :=
  { rainfall := .str "120"
    altitude := .str "15"
    areaElevation := .str "n/a"
    roadElevation := .str "7"
    drainageSystem := .str "Good" }

/-- A body with every field absent. -/
def allMissingBody : PredictBody :=
  { rainfall := .missing
    altitude := .missing
    areaElevation := .missing
    roadElevation := .missing
    drainageSystem := .missing }

/-- A body whose drainage string names an inherited `Object.prototype`
member. -/
def protoBody : PredictBody :=
  { rainfall := .missing
    altitude := .missing
    areaElevation := .missing
    roadElevation := .missing
    drainageSystem := .str "toString" }

/-! ### Helper lemmas -/

theorem riskLevel_ite_eq_spec (p : ℚ) :
    (if p > 0.7 then "High" else if p > 0.4 then "Medium" else "Low") = riskLevelSpec p := by
  by_cases h1 : (0.7 : ℚ) < p
  · simp [riskLevelSpec, gt_iff_lt, h1]
  · by_cases h2 : (0.4 : ℚ) < p
    · simp [riskLevelSpec, gt_iff_lt, h1, h2, not_lt.mp h1]
    · simp [riskLevelSpec, gt_iff_lt, h1, h2]

theorem handler_riskLevel (predict : List JSVal → ℚ) (po : ProbOutcome) (b : PredictBody) :
    (predictHandler predict po b).riskLevel = riskLevelSpec (floodProbOf predict po b) := by
  simpa [predictHandler] using riskLevel_ite_eq_spec (floodProbOf predict po b)

theorem jsOrV_num (a : Option ℚ) : ∃ q : ℚ, jsOrV (toJSVal a) (.num 0) = .num q := by
  rcases a with _ | v
  · exact ⟨0, rfl⟩
  · by_cases hv : v = 0
    · exact ⟨0, by simp [toJSVal, jsOrV, hv]⟩
    · exact ⟨v, by simp [toJSVal, jsOrV, hv]⟩

theorem digitCh_ne_dot (n : ℕ) : digitCh n ≠ '.' := by
  unfold digitCh
  have h : n % 10 < 10 := Nat.mod_lt _ (by norm_num)
  revert h
  generalize n % 10 = m
  intro h
  interval_cases m <;> decide

theorem toFixed1_shape (q : ℚ) : '.' ∈ (toFixed1 q).data ∧ fracLen (toFixed1 q) = 1 := by
  unfold toFixed1 fracLen
  have hdot : (".").data = ['.'] := rfl
  constructor
  · simp [String.data_append, hdot]
  · simp [String.data_append, hdot, List.takeWhile_cons, digitCh_ne_dot]

theorem jsParseFloat_200 : jsParseFloat "200" = some 200 := by
  rw [show jsParseFloat "200"
      = some ((1 : ℚ) * ((digitsVal ['2', '0', '0'] : ℚ)
          + (digitsVal ([] : List Char) : ℚ) / 10 ^ (0 : ℕ)) * (10 : ℚ) ^ (0 : ℤ)) from rfl]
  norm_num [digitsVal, show '2'.toNat - 48 = 2 from rfl, show '0'.toNat - 48 = 0 from rfl]

theorem jsParseFloat_5 : jsParseFloat "5" = some 5 := by
  rw [show jsParseFloat "5"
      = some ((1 : ℚ) * ((digitsVal ['5'] : ℚ)
          + (digitsVal ([] : List Char) : ℚ) / 10 ^ (0 : ℕ)) * (10 : ℚ) ^ (0 : ℤ)) from rfl]
  norm_num [digitsVal, show '5'.toNat - 48 = 5 from rfl]

theorem jsParseFloat_2 : jsParseFloat "2" = some 2 := by
  rw [show jsParseFloat "2"
      = some ((1 : ℚ) * ((digitsVal ['2'] : ℚ)
          + (digitsVal ([] : List Char) : ℚ) / 10 ^ (0 : ℕ)) * (10 : ℚ) ^ (0 : ℤ)) from rfl]
  norm_num [digitsVal, show '2'.toNat - 48 = 2 from rfl]

theorem jsParseFloat_1 : jsParseFloat "1" = some 1 := by
  rw [show jsParseFloat "1"
      = some ((1 : ℚ) * ((digitsVal ['1'] : ℚ)
          + (digitsVal ([] : List Char) : ℚ) / 10 ^ (0 : ℕ)) * (10 : ℚ) ^ (0 : ℤ)) from rfl]
  norm_num [digitsVal, show '1'.toNat - 48 = 1 from rfl]

theorem inputVec_example :
    inputVec examplePostBody = [.num 200, .num 5, .num 2, .num 1, .num 1] := by
  norm_num [inputVec, examplePostBody, parseFloatVal, jsParseFloat_200, jsParseFloat_5,
    jsParseFloat_2, jsParseFloat_1, toJSVal, jsOrV, jsOrUndef, drainageValue, drainageLookup]

theorem toFixed1_zero : toFixed1 0 = "0.0" := by
  have h0 : |(0 : ℚ)| * 10 + 1 / 2 = 1 / 2 := by norm_num
  have h1 : (⌊(1 / 2 : ℚ)⌋ : ℤ) = 0 := by
    rw [Int.floor_eq_zero_iff]
    constructor <;> norm_num
  show (if (0 : ℚ) < 0 then "-" else "")
      ++ natStr ((⌊|(0 : ℚ)| * 10 + 1 / 2⌋).toNat / 10) ++ "."
      ++ String.mk [digitCh (⌊|(0 : ℚ)| * 10 + 1 / 2⌋).toNat] = "0.0"
  rw [h0, h1, if_neg (lt_irrefl (0 : ℚ))]
  decide

/-! ### Claims -/

/-- C1: for every input to the prediction endpoint, the returned `riskLevel`
is derived from the flood probability by the fixed thresholds: probability
strictly greater than 0.7 yields "High", strictly greater than 0.4 but at most
0.7 yields "Medium", and at most 0.4 yields "Low", over the full probability
domain. -/
theorem C1_riskLevel_thresholds (predict : List JSVal → ℚ) (po : ProbOutcome)
    (b : PredictBody) :
    (predictHandler predict po b).riskLevel = riskLevelSpec (floodProbOf predict po b) :=
  handler_riskLevel predict po b

/-- C2 counterexample: the drainage string "toString" is none of the three
mapped strings, yet `drainageSystemMap["toString"]` reaches the inherited
truthy `Object.prototype.toString`, so `|| 2` does not fire and the feature
vector's drainage entry is that member, not code 2: the claim as stated is
false of the program at this input. -/
theorem C2_counterexample :
    protoBody.drainageSystem ≠ .str "Fair" ∧ protoBody.drainageSystem ≠ .str "Good" ∧
      protoBody.drainageSystem ≠ .str "Very Good" ∧
      (inputVec protoBody).getD 4 .nan = .obj "toString" ∧
      (inputVec protoBody).getD 4 .nan ≠ .num 2 := by
  decide

/-- C2 (amended): for every `drainageSystem` value that is not one of "Fair",
"Good", "Very Good" and, when a string, does not name an inherited
`Object.prototype` member (a missing value included), the prediction endpoint
puts drainage code 2 into the feature vector and answers 200 with a response
rather than an error. -/
theorem C2_drainage_default (predict : List JSVal → ℚ) (po : ProbOutcome) (b : PredictBody)
    (h1 : b.drainageSystem ≠ .str "Fair") (h2 : b.drainageSystem ≠ .str "Good")
    (h3 : b.drainageSystem ≠ .str "Very Good")
    (h4 : ∀ s ∈ protoProps, b.drainageSystem ≠ .str s) :
    (inputVec b).getD 4 .nan = .num 2 ∧
      predictRoute predict po b = (200, some (predictHandler predict po b)) := by
  refine ⟨?_, rfl⟩
  have hlook : drainageLookup b.drainageSystem = none := by
    unfold drainageLookup
    rw [if_neg h1, if_neg h2, if_neg h3]
    rcases hb : b.drainageSystem with _ | s | q
    · rfl
    · have hs : s ∉ protoProps := fun hmem => h4 s hmem hb
      simp [hs]
    · rfl
  simp [inputVec, drainageValue, hlook, jsOrUndef]

theorem C2_witness :
    (noDrainBody.drainageSystem ≠ .str "Fair") ∧ (noDrainBody.drainageSystem ≠ .str "Good") ∧
      (noDrainBody.drainageSystem ≠ .str "Very Good") ∧
      (∀ s ∈ protoProps, noDrainBody.drainageSystem ≠ .str s) ∧
      ((inputVec noDrainBody).getD 4 .nan = .num 2 ∧
        predictRoute (fun _ => 0) (.error ()) noDrainBody
          = (200, some (predictHandler (fun _ => 0) (.error ()) noDrainBody))) :=
  ⟨by decide, by decide, by decide, by decide,
    C2_drainage_default (fun _ => 0) (.error ()) noDrainBody (by decide) (by decide) (by decide)
      (by decide)⟩

/-- C3: for every request body with a non-numeric value (one whose `parseFloat`
is `NaN`) in any of the four numeric environmental fields, the corresponding
feature-vector entry is 0 and the endpoint still answers 200 with a response. -/
theorem C3_nonnumeric_coerces_to_zero (predict : List JSVal → ℚ) (po : ProbOutcome)
    (b : PredictBody) (i : Fin 4) (h : parseFloatVal (numField b i) = none) :
    (inputVec b).getD i.val .nan = .num 0 ∧
      predictRoute predict po b = (200, some (predictHandler predict po b)) := by
  refine ⟨?_, rfl⟩
  fin_cases i <;> simp_all [inputVec, numField, toJSVal, jsOrV]

theorem C3_witness :
    parseFloatVal (numField nanBody 2) = none ∧
      ((inputVec nanBody).getD (2 : Fin 4).val .nan = .num 0 ∧
        predictRoute (fun _ => 0) (.error ()) nanBody
          = (200, some (predictHandler (fun _ => 0) (.error ()) nanBody))) :=
  ⟨by decide, C3_nonnumeric_coerces_to_zero (fun _ => 0) (.error ()) nanBody 2 (by decide)⟩

/-- C4: every `GET /api/environmental-data` request missing the `lat` or the
`lng` query parameter is answered with status 400 and an error body. -/
theorem C4_missing_coordinates_400 (lat lng : Option String) (w e : Upstream) (r1 r2 : ℚ)
    (h : lat = none ∨ lng = none) :
    envRoute lat lng w e r1 r2 = .clientError 400 "Latitude and longitude are required" := by
  rcases h with h | h <;> subst h <;> simp [envRoute, jsFalsyParam]

theorem C4_witness :
    ((none : Option String) = none ∨ (some "85.3" : Option String) = none) ∧
      envRoute none (some "85.3") .threw .threw 0 0
        = .clientError 400 "Latitude and longitude are required" :=
  ⟨Or.inl rfl, C4_missing_coordinates_400 none (some "85.3") .threw .threw 0 0 (Or.inl rfl)⟩

/-- C5: with both coordinates present, a failing upstream weather call (thrown
fetch or non-success response) still yields status 200 and the rainfall field
"0.0"; the failure is never surfaced as an error. -/
theorem C5_weather_failure_absorbed (lat lng : String)
    (hlat : lat.isEmpty = false) (hlng : lng.isEmpty = false)
    (w e : Upstream) (hw : w = .threw ∨ w = .notOk) (r1 r2 : ℚ) :
    ∃ body : EnvResponse,
      envRoute (some lat) (some lng) w e r1 r2 = .ok 200 body ∧ body.rainfall = "0.0" := by
  have hrain : upstreamValue w = 0 := by rcases hw with h | h <;> subst h <;> rfl
  refine ⟨{ rainfall := toFixed1 (upstreamValue w)
            altitude := toFixed1 (upstreamValue e)
            areaElevation := toFixed1 (upstreamValue e + (r1 * 2 - 1))
            roadElevation := toFixed1 (upstreamValue e + (r2 * 0.5 - 0.25)) }, ?_, ?_⟩
  · simp [envRoute, jsFalsyParam, hlat, hlng]
  · show toFixed1 (upstreamValue w) = "0.0"
    rw [hrain, toFixed1_zero]

theorem C5_witness :
    ("27".isEmpty = false) ∧ ("85".isEmpty = false) ∧
      (Upstream.threw = .threw ∨ Upstream.threw = .notOk) ∧
      ∃ body : EnvResponse,
        envRoute (some "27") (some "85") .threw (.okData (some 7)) 0 0
          = .ok 200 body ∧ body.rainfall = "0.0" :=
  ⟨rfl, rfl, Or.inl rfl,
    C5_weather_failure_absorbed "27" "85" rfl rfl .threw (.okData (some 7)) (Or.inl rfl) 0 0⟩

/-- C6: when the classifier cannot produce a class-probability estimate (the
call threw), the endpoint substitutes 0.85 if the predicted label is flood and
0.15 otherwise; when the call yields a flood-class estimate, the returned
probability is that estimate. -/
theorem C6_probability_fallback (predict : List JSVal → ℚ) (b : PredictBody) :
    (predictHandler predict (.error ()) b).probability
        = toFixed2 ((if predict (inputVec b) = 1 then (0.85 : ℚ) else 0.15) * 100) ∧
      ∀ p : ℚ, (predictHandler predict (.ok (some p)) b).probability = toFixed2 (p * 100) := by
  constructor
  · rfl
  · intro p
    show toFixed2 (jsOrQ (some p) 0 * 100) = toFixed2 (p * 100)
    by_cases hp : p = 0
    · subst hp; simp [jsOrQ]
    · simp [jsOrQ, hp]

/-- C7: on every successful environmental-data response, `areaElevation` is
altitude plus a jitter within ±1 and `roadElevation` is altitude plus a jitter
within ±0.25, and each of the four numeric fields is rendered with exactly one
digit after the decimal point. -/
theorem C7_jitter_and_formatting (lat lng : String)
    (hlat : lat.isEmpty = false) (hlng : lng.isEmpty = false)
    (w e : Upstream) (r1 r2 : ℚ)
    (h1 : 0 ≤ r1) (h2 : r1 < 1) (h3 : 0 ≤ r2) (h4 : r2 < 1) :
    ∃ j1 j2 : ℚ, -1 ≤ j1 ∧ j1 ≤ 1 ∧ -(1/4) ≤ j2 ∧ j2 ≤ 1/4 ∧
      envRoute (some lat) (some lng) w e r1 r2 = .ok 200
        { rainfall := toFixed1 (upstreamValue w)
          altitude := toFixed1 (upstreamValue e)
          areaElevation := toFixed1 (upstreamValue e + j1)
          roadElevation := toFixed1 (upstreamValue e + j2) } ∧
      ∀ q : ℚ, '.' ∈ (toFixed1 q).data ∧ fracLen (toFixed1 q) = 1 := by
  refine ⟨r1 * 2 - 1, r2 * 0.5 - 0.25, by linarith, by linarith, by linarith, by linarith,
    ?_, toFixed1_shape⟩
  simp [envRoute, jsFalsyParam, hlat, hlng]

theorem C7_witness :
    ("27".isEmpty = false) ∧ ("85".isEmpty = false) ∧
      ((0 : ℚ) ≤ 0) ∧ ((0 : ℚ) < 1) ∧
      ∃ j1 j2 : ℚ, -1 ≤ j1 ∧ j1 ≤ 1 ∧ -(1/4) ≤ j2 ∧ j2 ≤ 1/4 ∧
        envRoute (some "27") (some "85") (.okData (some 3)) (.okData (some 7)) 0 0 = .ok 200
          { rainfall := toFixed1 (upstreamValue (.okData (some 3)))
            altitude := toFixed1 (upstreamValue (.okData (some 7)))
            areaElevation := toFixed1 (upstreamValue (.okData (some 7)) + j1)
            roadElevation := toFixed1 (upstreamValue (.okData (some 7)) + j2) } ∧
        ∀ q : ℚ, '.' ∈ (toFixed1 q).data ∧ fracLen (toFixed1 q) = 1 :=
  ⟨rfl, rfl, le_refl 0, zero_lt_one,
    C7_jitter_and_formatting "27" "85" rfl rfl (.okData (some 3)) (.okData (some 7)) 0 0
      (le_refl 0) zero_lt_one (le_refl 0) zero_lt_one⟩

/-- C8: the modelled classifier's predicted label on each of the 15 training
samples equals that sample's recorded label, and the example POST body of the
spec yields prediction "Flood Likely" with a riskLevel that follows the
threshold rule on the flood probability. -/
theorem C8_training_memorisation :
    (∀ i : Fin 15, rfModelPredict (Xtrain.getD i []) = ytrain.getD i 0) ∧
      ∀ po : ProbOutcome,
        (predictHandler rfModelPredictJS po examplePostBody).prediction = "Flood Likely" ∧
          (predictHandler rfModelPredictJS po examplePostBody).riskLevel
            = riskLevelSpec (floodProbOf rfModelPredictJS po examplePostBody) := by
  constructor
  · intro i
    fin_cases i <;>
      norm_num [rfModelPredict, nnBest, sqDist, Xtrain, ytrain, trainingData, evenIdx, oddIdx,
        List.getD]
  · intro po
    have hpred : rfModelPredictJS (inputVec examplePostBody) = 1 := by
      rw [rfModelPredictJS, inputVec_example]
      norm_num [jsValNum, rfModelPredict, nnBest, sqDist, Xtrain, ytrain, trainingData,
        evenIdx, oddIdx]
    exact ⟨by simp [predictHandler, hpred], handler_riskLevel _ _ _⟩

/-- C9: on the heuristic-probability fallback path, the returned riskLevel is
"High" exactly when the prediction is "Flood Likely" and "Low" otherwise;
"Medium" is unreachable there. -/
theorem C9_fallback_risk_dichotomy (predict : List JSVal → ℚ) (b : PredictBody) :
    ((predictHandler predict (.error ()) b).riskLevel = "High" ↔
        (predictHandler predict (.error ()) b).prediction = "Flood Likely") ∧
      ((predictHandler predict (.error ()) b).prediction ≠ "Flood Likely" →
        (predictHandler predict (.error ()) b).riskLevel = "Low") ∧
      (predictHandler predict (.error ()) b).riskLevel ≠ "Medium" := by
  by_cases h : predict (inputVec b) = 1
  · norm_num [predictHandler, floodProbOf, h]
    decide
  · norm_num [predictHandler, floodProbOf, h]
    decide

theorem C9_witness :
    (((predictHandler (fun _ => 1) (.error ()) allMissingBody).riskLevel = "High" ↔
        (predictHandler (fun _ => 1) (.error ()) allMissingBody).prediction = "Flood Likely") ∧
      ((predictHandler (fun _ => 1) (.error ()) allMissingBody).prediction ≠ "Flood Likely" →
        (predictHandler (fun _ => 1) (.error ()) allMissingBody).riskLevel = "Low") ∧
      (predictHandler (fun _ => 1) (.error ()) allMissingBody).riskLevel ≠ "Medium") :=
  C9_fallback_risk_dichotomy (fun _ => 1) allMissingBody

/-- C10: for every request body, each of the first four feature-vector entries
is a non-`NaN` number, and a field whose parse is `NaN` contributes 0. -/
theorem C10_features_not_nan (b : PredictBody) :
    (∀ x ∈ (inputVec b).take 4, ∃ q : ℚ, x = .num q) ∧
      ∀ i : Fin 4, parseFloatVal (numField b i) = none →
        (inputVec b).getD i.val .nan = .num 0 := by
  constructor
  · intro x hx
    simp only [inputVec, List.take, List.mem_cons, List.not_mem_nil, or_false] at hx
    rcases hx with h | h | h | h <;> subst h <;> exact jsOrV_num _
  · intro i h
    fin_cases i <;> simp_all [inputVec, numField, toJSVal, jsOrV]

theorem C10_witness :
    (∀ x ∈ (inputVec allMissingBody).take 4, ∃ q : ℚ, x = .num q) ∧
      ∀ i : Fin 4, parseFloatVal (numField allMissingBody i) = none →
        (inputVec allMissingBody).getD i.val .nan = .num 0 :=
  C10_features_not_nan allMissingBody
